import Mathlib

/-!
Shallow embedding of the GLSL conversion pass of XShaderCompiler
(`src/Compiler/Backend/GLSL/GLSLConverter.cpp`, namespace `Xsc`).

The pass rewrites a parsed, symbol-resolved, type-annotated shader AST in
place.  The converter object (`GLSLConverter`) carries mutable member state
(`shaderTarget_`, `nameManglingPrefix_`, `structDeclLevel_`,
`isInsideEntryPoint_`, `reservedVarIdents_`); here that state is a
`ConvState` value threaded through the visit functions.  Visit functions
that can raise `RuntimeErr` return `Except ConvError`.  Functions of the
surrounding project whose sources are not part of the repository snapshot
(the AST node classes, the `Visitor` base class's default traversal,
`ASTFactory`, `MustResolveStructForTarget`) are modelled from the
specification's description of them; each such definition says so in its
doc comment.
-/

namespace Xsc

/-- Modelled from the spec: scalar data types of `BaseTypeDenoter`
(`DataType` enum of the AST; the converter reads `Int`, `UInt`, `Float`
and writes `Float` for half-precision literals). -/
inductive DataType
  | Undefined
  | Bool
  | Int
  | UInt
  | Half
  | Float
  | Double
deriving DecidableEq, Repr

/-- Modelled from the spec: a resolved type denoter is a base type (scalar,
vector or matrix data type), a structure type naming a struct declaration
(the declaration reference is an id), a sampler type, or some other type.
`Get()` on an already resolved denoter is the identity, so it is not
modelled separately. -/
inductive TypeDenoter
  | Base (dataType : DataType)
  | Struct (structDeclRef : Nat)
  | Sampler
  | Other
deriving DecidableEq, Repr

/-- Modelled from the spec: the intrinsic tag of a function call.  The
converter reads `Saturate`, `Undefined` and `SinCos` and writes `Clamp`
(and, for the sincos splitting, separate sine and cosine calls). -/
inductive Intrinsic
  | Undefined
  | Saturate
  | Clamp
  | SinCos
  | Sin
  | Cos
  | OtherIntrinsic
deriving DecidableEq, Repr

/-- Modelled from the spec: the non-owning view of a `VarDecl` that a
symbol back-reference reaches.  The converter reads the declaration's
identifier, its `isShaderInput` and `isSystemValue` flags, and the type
denoter of its declaring statement (`declStmntRef->varType->typeDenoter`). -/
structure VarDeclSymbol where
  ident : String
  isShaderInput : Bool
  isSystemValue : Bool
  declTypeDen : TypeDenoter
deriving DecidableEq, Repr

/-- Modelled from the spec: a symbol back-reference names a variable
declaration or some other kind of declaration (`symbolRef->As<VarDecl>()`
succeeds only in the first case). -/
inductive SymbolRef
  | varDeclRef (decl : VarDeclSymbol)
  | otherDecl
deriving DecidableEq, Repr

/-- Modelled from the spec: one segment of a `VarIdent` chain — an
identifier with an optional symbol back-reference.  A chain `a.b.c` is the
list of its segments; the `next` pointer of the source is the tail of the
list. -/
structure VarIdentSeg where
  ident : String
  symbolRef : Option SymbolRef
deriving DecidableEq, Repr

/-- Modelled from the spec: `VarIdent::PopFront` removes the current
segment and promotes `next` to be the new head; on a segment with no
`next` it does nothing. -/
def popFront : List VarIdentSeg → List VarIdentSeg
  | _ :: b :: rest => b :: rest
  | l => l

/-- Conversion context of one `GLSLConverter` object: its member state
(`shaderTarget_`, `nameManglingPrefix_`, `structDeclLevel_`,
`isInsideEntryPoint_`, `reservedVarIdents_`).  The shader target is an
opaque enumerated value, modelled as `Nat`. -/
structure ConvState where
  shaderTarget : Nat
  nameManglingPrefix : String
  structDeclLevel : Nat
  isInsideEntryPoint : Bool
  reservedVarIdents : List String
deriving DecidableEq, Repr

/-- Modelled from the spec: the external target-dependent predicate
`MustResolveStructForTarget` of `GLSLHelper`, consumed by the pass as an
opaque pure function over the shader target and a struct declaration. -/
structure ExternalFuncs where
  mustResolveStructForTarget : Nat → Nat → Bool

/-- Errors raised by `RuntimeErr` in `GLSLConverter::VisitFunctionCall`:
"invalid argument type denoter in intrinsic 'saturate'" and
"invalid number of arguments in intrinsic 'saturate'". -/
inductive ConvError
  | invalidArgTypeSaturate
  | invalidNumArgsSaturate
deriving DecidableEq, Repr

mutual
/-- Modelled from the spec: the expression node kinds the pass touches.
Every expression exposes a resolved type denoter (a precondition of the
pass); nodes whose denoter is not derived from a child store it as a
field.  `otherExpr` stands for any further expression kind, carrying only
its resolved denoter. -/
inductive Expr
  | literalExpr (value : String) (dataType : DataType)
  | binaryExpr (typeDen : TypeDenoter) (lhsExpr rhsExpr : Expr)
  | unaryExpr (typeDen : TypeDenoter) (expr : Expr)
  | bracketExpr (expr : Expr)
  | castExpr (typeDen : TypeDenoter) (expr : Expr)
  | varAccessExpr (typeDen : TypeDenoter) (varIdent : List VarIdentSeg)
      (assignExpr : Option Expr)
  | functionCallExpr (call : FunctionCall)
  | listExpr (firstExpr secondExpr : Expr)
  | otherExpr (typeDen : TypeDenoter)

/-- Modelled from the spec: a function call — its resolved return type
denoter, its intrinsic tag, its name (a `VarIdent` chain) and its
argument list. -/
inductive FunctionCall
  | mk (typeDen : TypeDenoter) (intrinsic : Intrinsic)
      (name : List VarIdentSeg) (arguments : List Expr)
end

/-- Intrinsic tag of a function call. -/
def FunctionCall.intrinsic : FunctionCall → Intrinsic
  | .mk _ i _ _ => i

/-- Resolved return type denoter of a function call. -/
def FunctionCall.typeDen : FunctionCall → TypeDenoter
  | .mk t _ _ _ => t

/-- Name chain of a function call. -/
def FunctionCall.name : FunctionCall → List VarIdentSeg
  | .mk _ _ n _ => n

/-- Argument list of a function call. -/
def FunctionCall.arguments : FunctionCall → List Expr
  | .mk _ _ _ a => a

/-- Modelled from the spec: `TypeDenoter::IsBase`. -/
def TypeDenoter.IsBase : TypeDenoter → Bool
  | .Base _ => true
  | _ => false

/-- Modelled from the spec: `TypeDenoter::IsSampler`. -/
def TypeDenoter.IsSampler : TypeDenoter → Bool
  | .Sampler => true
  | _ => false

/-- Modelled from the spec: `GetTypeDenoter()->Get()` on an expression —
every expression exposes a resolved type denoter.  A literal's denoter is
the base denoter of its data type, a cast's is its target denoter, a
bracket's and a list's come from the wrapped (first) expression, every
other node stores its resolved denoter. -/
def Expr.getTypeDenoter : Expr → TypeDenoter
  | .literalExpr _ dataType => .Base dataType
  | .binaryExpr typeDen _ _ => typeDen
  | .unaryExpr typeDen _ => typeDen
  | .bracketExpr expr => expr.getTypeDenoter
  | .castExpr typeDen _ => typeDen
  | .varAccessExpr typeDen _ _ => typeDen
  | .functionCallExpr (.mk typeDen _ _ _) => typeDen
  | .listExpr firstExpr _ => firstExpr.getTypeDenoter
  | .otherExpr typeDen => typeDen

/-- GLSLConverter.cpp 313-316, `GLSLConverter::ExprContainsSampler`:
the expression's resolved type denoter is a sampler type. -/
def exprContainsSampler (e : Expr) : Bool :=
  e.getTypeDenoter.IsSampler

/-- GLSLConverter.cpp 318-321, `GLSLConverter::VarTypeIsSampler`:
the declared type's denoter is a sampler type. -/
def varTypeIsSampler (varTypeDen : TypeDenoter) : Bool :=
  varTypeDen.IsSampler

/-- GLSLConverter.cpp 344-357,
`GLSLConverter::HasVarDeclOfVarIdentSystemSemantic`: the segment has a
symbol reference, that reference is a variable declaration, and the
declaration carries the `isSystemValue` flag. -/
def hasVarDeclOfVarIdentSystemSemantic (seg : VarIdentSeg) : Bool :=
  match seg.symbolRef with
  | some (.varDeclRef decl) => decl.isSystemValue
  | _ => false

/-- GLSLConverter.cpp 359-385, inner loop of
`GLSLConverter::MakeVarIdentWithSystemSemanticLocal`:

  while (root and not HasVarDeclOfVarIdentSystemSemantic(root))
    root->PopFront(); root = root->next;

`PopFront` copies the successor segment into the current node (so the
examined segment is removed from the chain), and the loop then ALSO
advances `root` to the node after the current one; together the two steps
examine the head, then every other segment of the original chain.  In
list form, with the current node as the head of the suffix: an examined
segment that carries the system-value flag stops the loop with the whole
suffix kept; an examined segment without the flag and with a successor is
removed, the segment after it (now occupying the current node) is kept,
and the loop continues past it; a final segment without the flag is kept
because `PopFront` does nothing on it and `root` becomes null. -/
def makeLocalInner : List VarIdentSeg → List VarIdentSeg
  | [] => []
  | [a] => [a]
  | a :: b :: rest =>
    if hasVarDeclOfVarIdentSystemSemantic a then a :: b :: rest
    else b :: makeLocalInner rest

/-- GLSLConverter.cpp 359-385,
`GLSLConverter::MakeVarIdentWithSystemSemanticLocal`: the outer loop walks
the chain without mutating it until it finds a segment whose referenced
declaration carries the system-value flag; only then does the inner loop
(`makeLocalInner`, starting from the chain's head) run, and the function
returns as soon as that inner loop finishes.  When no segment carries the
flag the chain is left untouched. -/
def makeVarIdentWithSystemSemanticLocal (segs : List VarIdentSeg) : List VarIdentSeg :=
  if segs.any hasVarDeclOfVarIdentSystemSemantic then makeLocalInner segs else segs

/-- GLSLConverter.cpp 96-122, `GLSLConverter::VisitVarIdent`: when the
identifier has a next segment and a symbol reference to a variable
declaration whose declared type denoter is a structure type, either pop
the leading segment (when the structure must be resolved for the active
target) or run the system-semantic conversion; otherwise leave the chain
unchanged.  This visit does not recurse into sub-identifiers. -/
def visitVarIdent (ext : ExternalFuncs) (shaderTarget : Nat)
    (segs : List VarIdentSeg) : List VarIdentSeg :=
  match segs with
  | seg :: rest =>
    if rest.isEmpty then segs
    else
      match seg.symbolRef with
      | some (.varDeclRef varDecl) =>
        match varDecl.declTypeDen with
        | .Struct structDeclRef =>
          if ext.mustResolveStructForTarget shaderTarget structDeclRef then
            popFront segs
          else
            makeVarIdentWithSystemSemanticLocal segs
        | _ => segs
      | _ => segs
  | [] => segs

/-- GLSLConverter.cpp 410-431, `GLSLConverter::MustCastExprToDataType`:
a cast data type is produced exactly when both denoters are base types and
the target is `UInt` with source `Int` (cast to `UInt`) or the target is
`Int` with source `UInt` (cast to `Int`). -/
def mustCastExprToDataType (targetTypeDen sourceTypeDen : TypeDenoter) : Option DataType :=
  match targetTypeDen with
  | .Base targetDT =>
    match sourceTypeDen with
    | .Base sourceDT =>
      if targetDT = .UInt then
        if sourceDT = .Int then some .UInt else none
      else if targetDT = .Int then
        if sourceDT = .UInt then some .Int else none
      else none
    | _ => none
  | _ => none

/-- Modelled from the spec: `ASTFactory::MakeBaseTypeCastExpr` — a new
cast-wrapping expression node of the given base data type, preserving the
original expression as its operand. -/
def makeBaseTypeCastExpr (dataType : DataType) (expr : Expr) : Expr :=
  .castExpr (.Base dataType) expr

/-- GLSLConverter.cpp 433-440, `GLSLConverter::ConvertExprIfCastRequired`:
replace the expression by a cast-wrapping node when
`MustCastExprToDataType` yields a data type for the target denoter and the
expression's own resolved denoter; otherwise keep the expression. -/
def convertExprIfCastRequired (expr : Expr) (targetTypeDen : TypeDenoter) : Expr :=
  match mustCastExprToDataType targetTypeDen expr.getTypeDenoter with
  | some dataType => makeBaseTypeCastExpr dataType expr
  | none => expr

/-- Modelled from the spec: `ASTFactory::MakeLiteralCastExpr` — a literal
expression of the given data type and spelling, wrapped in a cast to the
given type denoter. -/
def makeLiteralCastExpr (typeDen : TypeDenoter) (literalType : DataType)
    (literalValue : String) : Expr :=
  .castExpr typeDen (.literalExpr literalValue literalType)

/-- The operand of `GLSLConverter::VisitUnaryExpr`'s check: the expression
is itself a unary expression. -/
def isUnaryExpr : Expr → Bool
  | .unaryExpr _ _ => true
  | _ => false

mutual
/-- Expression dispatch of the converter's traversal.  Overridden visits
(GLSLConverter.cpp): `VisitLiteralExpr` (238-254) rewrites a trailing
half-precision suffix; `VisitBinaryExpr` (256-263) runs the default
visitor first and then converts the right-hand side against the visited
left-hand side's type; `VisitUnaryExpr` (265-280) wraps a unary operand in
a bracket expression before the default visitor recurses into it (the
recursion into the inserted bracket node, which only visits its child, is
fused here); `VisitVarAccessExpr` (282-292) runs the default visitor and
then converts the assignment expression against the access expression's
own type.  Bracket, cast and list expressions are not overridden: the
default visitor (modelled from the spec) recurses into their children. -/
def visitExpr (ext : ExternalFuncs) (st : ConvState) : Expr → Except ConvError Expr
  | .literalExpr value dataType =>
    if !value.isEmpty then
      if value.back = 'h' || value.back = 'H' then
        pure (.literalExpr (value.dropRight 1 ++ "f") .Float)
      else pure (.literalExpr value dataType)
    else pure (.literalExpr value dataType)
  | .binaryExpr typeDen lhsExpr rhsExpr => do
    let lhs ← visitExpr ext st lhsExpr
    let rhs ← visitExpr ext st rhsExpr
    pure (.binaryExpr typeDen lhs (convertExprIfCastRequired rhs lhs.getTypeDenoter))
  | .unaryExpr typeDen expr => do
    let sub ← visitExpr ext st expr
    pure (.unaryExpr typeDen (if isUnaryExpr expr then .bracketExpr sub else sub))
  | .bracketExpr expr => do
    let sub ← visitExpr ext st expr
    pure (.bracketExpr sub)
  | .castExpr typeDen expr => do
    let sub ← visitExpr ext st expr
    pure (.castExpr typeDen sub)
  | .varAccessExpr typeDen varIdent assignExpr =>
    match assignExpr with
    | none => pure (.varAccessExpr typeDen (visitVarIdent ext st.shaderTarget varIdent) none)
    | some a => do
      let a' ← visitExpr ext st a
      pure (.varAccessExpr typeDen (visitVarIdent ext st.shaderTarget varIdent)
        (some (convertExprIfCastRequired a' typeDen)))
  | .functionCallExpr call => do
    let c ← visitFunctionCall ext st call
    pure (.functionCallExpr c)
  | .listExpr firstExpr secondExpr => do
    let e1 ← visitExpr ext st firstExpr
    let e2 ← visitExpr ext st secondExpr
    pure (.listExpr e1 e2)
  | .otherExpr typeDen => pure (.otherExpr typeDen)

/-- GLSLConverter.cpp 51-84, `GLSLConverter::VisitFunctionCall`.  A call
tagged `Saturate` must have exactly one argument whose resolved denoter is
a base type; it is retagged `Clamp` and two literal arguments `0` and `1`
of integer spelling, each cast to the argument's denoter, are appended,
then the default visitor visits the name and all arguments (the two
appended cast literals are left unchanged by that traversal — see
`visitExpr_makeLiteralCastExpr_fix` — so they are appended here in final
form).  Wrong argument count or a non-base argument raises the matching
error.  A call tagged `Undefined` has every sampler-typed argument erased
before the default visitor runs (`visitArgsEraseSampler` fuses the
erasure with the traversal of the survivors; see
`visitArgsEraseSampler_eq_filter`).  Every other call is traversed by the
default visitor only. -/
def visitFunctionCall (ext : ExternalFuncs) (st : ConvState) :
    FunctionCall → Except ConvError FunctionCall
  | .mk typeDen intrinsic name arguments =>
    if intrinsic = .Saturate then
      match arguments with
      | [arg] =>
        let argTypeDen := arg.getTypeDenoter
        if argTypeDen.IsBase then do
          let argV ← visitExpr ext st arg
          pure (.mk typeDen .Clamp (visitVarIdent ext st.shaderTarget name)
            [argV, makeLiteralCastExpr argTypeDen .Int "0",
              makeLiteralCastExpr argTypeDen .Int "1"])
        else throw .invalidArgTypeSaturate
      | _ => throw .invalidNumArgsSaturate
    else if intrinsic = .Undefined then do
      let args ← visitArgsEraseSampler ext st arguments
      pure (.mk typeDen intrinsic (visitVarIdent ext st.shaderTarget name) args)
    else do
      let args ← visitExprList ext st arguments
      pure (.mk typeDen intrinsic (visitVarIdent ext st.shaderTarget name) args)

/-- GLSLConverter.cpp 74-79: `EraseIf` removes every argument whose
resolved type denoter is a sampler type, and the default visitor then
visits the remaining arguments in order; the two steps are fused here and
proved equal to filtering first (`visitArgsEraseSampler_eq_filter`). -/
def visitArgsEraseSampler (ext : ExternalFuncs) (st : ConvState) :
    List Expr → Except ConvError (List Expr)
  | [] => pure []
  | a :: rest =>
    if exprContainsSampler a then visitArgsEraseSampler ext st rest
    else do
      let a' ← visitExpr ext st a
      let rest' ← visitArgsEraseSampler ext st rest
      pure (a' :: rest')

/-- Modelled from the spec: the default visitor traverses a list of
argument expressions left to right. -/
def visitExprList (ext : ExternalFuncs) (st : ConvState) :
    List Expr → Except ConvError (List Expr)
  | [] => pure []
  | e :: es => do
    let e' ← visitExpr ext st e
    let es' ← visitExprList ext st es
    pure (e' :: es')
end

/-- Modelled from the spec: the default visitor on an optional child
expression. -/
def visitOptExpr (ext : ExternalFuncs) (st : ConvState) :
    Option Expr → Except ConvError (Option Expr)
  | none => pure none
  | some e => do
    let e' ← visitExpr ext st e
    pure (some e')

/-- Modelled from the spec: a declared variable as the pass reads it — its
identifier, its shader-input and system-value flags, the resolved type
denoter of the declaration, and an optional initializer expression. -/
structure VarDecl where
  ident : String
  isShaderInput : Bool
  isSystemValue : Bool
  typeDen : TypeDenoter
  initializer : Option Expr

/-- GLSLConverter.cpp 308-311, `GLSLConverter::IsInsideStructDecl`:
the struct-declaration nesting counter is positive. -/
def isInsideStructDecl (st : ConvState) : Bool :=
  st.structDeclLevel > 0

/-- GLSLConverter.cpp 328-336, `GLSLConverter::MustRenameVarDecl`: the
variable is not inside a structure declaration, is not flagged as shader
input, and its identifier occurs in the reserved identifier list. -/
def mustRenameVarDecl (st : ConvState) (vd : VarDecl) : Bool :=
  !(isInsideStructDecl st) && !vd.isShaderInput
    && st.reservedVarIdents.contains vd.ident

/-- GLSLConverter.cpp 338-342, `GLSLConverter::RenameVarDecl`: the
identifier becomes the name-mangling prefix followed by the original
identifier. -/
def renameVarDecl (st : ConvState) (vd : VarDecl) : VarDecl :=
  { vd with ident := st.nameManglingPrefix ++ vd.ident }

/-- GLSLConverter.cpp 126-141, `GLSLConverter::VisitVarDecl`: rename the
variable when `MustRenameVarDecl` holds, convert the initializer against
the variable's own resolved type denoter when a cast is required, then let
the default visitor recurse into the (possibly cast-wrapped)
initializer. -/
def visitVarDecl (ext : ExternalFuncs) (st : ConvState) (vd : VarDecl) :
    Except ConvError VarDecl := do
  let vd1 := if mustRenameVarDecl st vd then renameVarDecl st vd else vd
  let vd2 := { vd1 with
    initializer := vd1.initializer.map (fun e => convertExprIfCastRequired e vd1.typeDen) }
  let init ← visitOptExpr ext st vd2.initializer
  pure { vd2 with initializer := init }

/-- Modelled from the spec: the default visitor traverses the variable
declarations of a declaration statement left to right. -/
def visitVarDeclList (ext : ExternalFuncs) (st : ConvState) :
    List VarDecl → Except ConvError (List VarDecl)
  | [] => pure []
  | vd :: rest => do
    let vd' ← visitVarDecl ext st vd
    let rest' ← visitVarDeclList ext st rest
    pure (vd' :: rest')

/-- Modelled from the spec: a variable declaration statement — the
declared type's resolved denoter (`varType->typeDenoter`) and the declared
variables. -/
structure VarDeclStmnt where
  varTypeDen : TypeDenoter
  varDecls : List VarDecl

/-- Modelled from the spec: the default visitor on a variable declaration
statement visits its variable declarations (dispatching
`VisitVarDecl` on each); `VisitVarDeclStmnt` is not overridden by the
converter. -/
def visitVarDeclStmnt (ext : ExternalFuncs) (st : ConvState) (ds : VarDeclStmnt) :
    Except ConvError VarDeclStmnt := do
  let decls ← visitVarDeclList ext st ds.varDecls
  pure { ds with varDecls := decls }

/-- Modelled from the spec: the default visitor on a list of variable
declaration statements (struct members, function parameters). -/
def visitVarDeclStmntList (ext : ExternalFuncs) (st : ConvState) :
    List VarDeclStmnt → Except ConvError (List VarDeclStmnt)
  | [] => pure []
  | ds :: rest => do
    let ds' ← visitVarDeclStmnt ext st ds
    let rest' ← visitVarDeclStmntList ext st rest
    pure (ds' :: rest')

/-- Modelled from the spec: a structure declaration with its member
declaration statements. -/
structure StructDecl where
  members : List VarDeclStmnt

/-- GLSLConverter.cpp 86-94 and 298-306, `GLSLConverter::VisitStructDecl`
with `PushStructDeclLevel`/`PopStructDeclLevel`: increment the nesting
counter, run the default visitor over the members, decrement the
counter. -/
def visitStructDecl (ext : ExternalFuncs) (st : ConvState) (sd : StructDecl) :
    Except ConvError (ConvState × StructDecl) := do
  let stIn := { st with structDeclLevel := st.structDeclLevel + 1 }
  let members ← visitVarDeclStmntList ext stIn sd.members
  pure ({ stIn with structDeclLevel := stIn.structDeclLevel - 1 },
    { sd with members := members })

mutual
/-- Modelled from the spec: the statement node kinds the pass touches,
with the child slots the converter reads.  A function declaration appears
among the program's global statements. -/
inductive Stmnt
  | forLoopStmnt (condition : Option Expr) (iteration : Option Expr) (bodyStmnt : Stmnt)
  | whileLoopStmnt (condition : Expr) (bodyStmnt : Stmnt)
  | doWhileLoopStmnt (bodyStmnt : Stmnt) (condition : Expr)
  | ifStmnt (condExpr : Expr) (bodyStmnt : Stmnt) (elseStmnt : Option Stmnt)
  | elseStmnt (bodyStmnt : Stmnt)
  | exprStmnt (expr : Expr)
  | returnStmnt (expr : Option Expr)
  | codeBlockStmnt (stmnts : List Stmnt)
  | varDeclStmnt (decl : VarDeclStmnt)
  | structDeclStmnt (decl : StructDecl)
  | functionDeclStmnt (decl : FunctionDecl)

/-- Modelled from the spec: a function declaration — its reachability and
entry-point flags, its parameters, and its body statements. -/
inductive FunctionDecl
  | mk (isReachable : Bool) (isEntryPoint : Bool)
      (parameters : List VarDeclStmnt) (body : List Stmnt)
end

/-- The check `bodyStmnt->As<ReturnStmnt>()` of
`GLSLConverter::MakeCodeBlockInEntryPointReturnStmnt`. -/
def isReturnStmnt : Stmnt → Bool
  | .returnStmnt _ => true
  | _ => false

/-- GLSLConverter.cpp 387-402,
`GLSLConverter::MakeCodeBlockInEntryPointReturnStmnt`: inside the entry
point, a body slot holding a bare return statement is replaced by a code
block statement whose only statement is that return; any other body, or
any body outside the entry point, is left as it is. -/
def makeCodeBlockInEntryPointReturnStmnt (isInsideEntryPoint : Bool)
    (bodyStmnt : Stmnt) : Stmnt :=
  if isInsideEntryPoint then
    match bodyStmnt with
    | .returnStmnt e => .codeBlockStmnt [.returnStmnt e]
    | s => s
  else bodyStmnt

/-- Modelled from the spec: `ASTFactory::FindSingleFunctionCall` — the
function call that the expression is, or directly contains as its sole
call under bracket grouping. -/
def findSingleFunctionCall : Expr → Option FunctionCall
  | .functionCallExpr call => some call
  | .bracketExpr expr => findSingleFunctionCall expr
  | _ => none

mutual
/-- Statement dispatch of the converter's traversal.  The five visits of
GLSLConverter.cpp 178-221 (for, while, do-while, if, else) apply
`MakeCodeBlockInEntryPointReturnStmnt` to their body slot before the
default visitor recurses; since the inserted code block node is itself
traversed only by the default visitor (which visits its single statement),
the wrap is applied here around the visited body.  `VisitExprStmnt`
(223-234) replaces a sole `SinCos` call by the two synthesized calls of
`ASTFactory::MakeSeparatedSinCosFunctionCalls` (modelled from the spec: a
pair of separate sine and cosine calls preserving the original arguments)
before the default visitor runs; the traversal of the two synthesized
calls reduces to one traversal of the shared name and argument lists,
fused here.  Return, code-block and variable/structure/function
declaration statements follow the default traversal, dispatching the
overridden visits of their children. -/
def visitStmnt (ext : ExternalFuncs) (st : ConvState) :
    Stmnt → Except ConvError (ConvState × Stmnt)
  | .forLoopStmnt condition iteration bodyStmnt => do
    let c ← visitOptExpr ext st condition
    let i ← visitOptExpr ext st iteration
    let (st1, b) ← visitStmnt ext st bodyStmnt
    pure (st1, .forLoopStmnt c i
      (if st.isInsideEntryPoint && isReturnStmnt bodyStmnt then .codeBlockStmnt [b] else b))
  | .whileLoopStmnt condition bodyStmnt => do
    let c ← visitExpr ext st condition
    let (st1, b) ← visitStmnt ext st bodyStmnt
    pure (st1, .whileLoopStmnt c
      (if st.isInsideEntryPoint && isReturnStmnt bodyStmnt then .codeBlockStmnt [b] else b))
  | .doWhileLoopStmnt bodyStmnt condition => do
    let (st1, b) ← visitStmnt ext st bodyStmnt
    let c ← visitExpr ext st1 condition
    pure (st1, .doWhileLoopStmnt
      (if st.isInsideEntryPoint && isReturnStmnt bodyStmnt then .codeBlockStmnt [b] else b) c)
  | .ifStmnt condExpr bodyStmnt elseStmnt => do
    let c ← visitExpr ext st condExpr
    let (st1, b) ← visitStmnt ext st bodyStmnt
    let (st2, e) ← visitOptStmnt ext st1 elseStmnt
    pure (st2, .ifStmnt c
      (if st.isInsideEntryPoint && isReturnStmnt bodyStmnt then .codeBlockStmnt [b] else b) e)
  | .elseStmnt bodyStmnt => do
    let (st1, b) ← visitStmnt ext st bodyStmnt
    pure (st1, .elseStmnt
      (if st.isInsideEntryPoint && isReturnStmnt bodyStmnt then .codeBlockStmnt [b] else b))
  | .exprStmnt expr =>
    match findSingleFunctionCall expr with
    | some funcCall =>
      if funcCall.intrinsic = .SinCos then do
        let nameV := visitVarIdent ext st.shaderTarget funcCall.name
        let argsV ← visitExprList ext st funcCall.arguments
        pure (st, .exprStmnt (.listExpr
          (.functionCallExpr (.mk funcCall.typeDen .Sin nameV argsV))
          (.functionCallExpr (.mk funcCall.typeDen .Cos nameV argsV))))
      else do
        let e ← visitExpr ext st expr
        pure (st, .exprStmnt e)
    | none => do
      let e ← visitExpr ext st expr
      pure (st, .exprStmnt e)
  | .returnStmnt expr => do
    let e ← visitOptExpr ext st expr
    pure (st, .returnStmnt e)
  | .codeBlockStmnt stmnts => do
    let (st1, l) ← visitStmntList ext st stmnts
    pure (st1, .codeBlockStmnt l)
  | .varDeclStmnt decl => do
    let d ← visitVarDeclStmnt ext st decl
    pure (st, .varDeclStmnt d)
  | .structDeclStmnt decl => do
    let (st1, d) ← visitStructDecl ext st decl
    pure (st1, .structDeclStmnt d)
  | .functionDeclStmnt decl => do
    let (st1, d) ← visitFunctionDecl ext st decl
    pure (st1, .functionDeclStmnt d)

/-- Modelled from the spec: the default visitor on an optional child
statement (the else branch of an if statement). -/
def visitOptStmnt (ext : ExternalFuncs) (st : ConvState) :
    Option Stmnt → Except ConvError (ConvState × Option Stmnt)
  | none => pure (st, none)
  | some s => do
    let (st1, s') ← visitStmnt ext st s
    pure (st1, some s')

/-- Modelled from the spec: the default visitor on a statement list,
left to right, threading the converter's member state. -/
def visitStmntList (ext : ExternalFuncs) (st : ConvState) :
    List Stmnt → Except ConvError (ConvState × List Stmnt)
  | [] => pure (st, [])
  | s :: rest => do
    let (st1, s') ← visitStmnt ext st s
    let (st2, rest') ← visitStmntList ext st1 rest
    pure (st2, s' :: rest')

/-- GLSLConverter.cpp 145-174, `GLSLConverter::VisitFunctionDecl`: a
function that is not reachable is returned untouched without recursing;
otherwise every parameter whose declared type is a sampler type is erased,
and the default visitor traverses the remaining parameters and the body —
with the `isInsideEntryPoint` member set for the duration when the
function is the entry point, and explicitly cleared afterwards. -/
def visitFunctionDecl (ext : ExternalFuncs) (st : ConvState) :
    FunctionDecl → Except ConvError (ConvState × FunctionDecl)
  | .mk isReachable isEntryPoint parameters body =>
    if !isReachable then pure (st, .mk isReachable isEntryPoint parameters body)
    else
      let params := parameters.filter (fun p => !(varTypeIsSampler p.varTypeDen))
      if isEntryPoint then do
        let stIn := { st with isInsideEntryPoint := true }
        let params' ← visitVarDeclStmntList ext stIn params
        let (stB, body') ← visitStmntList ext stIn body
        pure ({ stB with isInsideEntryPoint := false },
          .mk isReachable isEntryPoint params' body')
      else do
        let params' ← visitVarDeclStmntList ext st params
        let (stB, body') ← visitStmntList ext st body
        pure (stB, .mk isReachable isEntryPoint params' body')
end

/-- Modelled from the spec: the program root as the pass reads it — the
resolved entry point's declared input-semantic and output-semantic
variables (`entryPointRef->inputSemantics.varDeclRefsSV` and
`entryPointRef->outputSemantics.varDeclRefsSV`, weak references), and the
global statements the default visitor traverses. -/
structure Program where
  entryPointInputSemanticsSV : List VarDeclSymbol
  entryPointOutputSemanticsSV : List VarDeclSymbol
  globalStmnts : List Stmnt

/-- GLSLConverter.cpp 404-408, `GLSLConverter::RegisterReservedVarIdents`:
append the identifier of every given variable declaration to the reserved
identifier list. -/
def registerReservedVarIdents (st : ConvState) (varDecls : List VarDeclSymbol) : ConvState :=
  { st with reservedVarIdents :=
      st.reservedVarIdents ++ varDecls.map VarDeclSymbol.ident }

/-- Modelled from the spec: `Visitor::VisitProgram`, the default traversal
of the program root — it visits the global statements and nothing else. -/
def defaultVisitProgram (ext : ExternalFuncs) (st : ConvState) (prog : Program) :
    Except ConvError (ConvState × Program) := do
  let (st1, l) ← visitStmntList ext st prog.globalStmnts
  pure (st1, { prog with globalStmnts := l })

/-- GLSLConverter.cpp 41-49, `GLSLConverter::VisitProgram`: register the
entry point's input-semantic and then its output-semantic variable
identifiers as reserved, then run the default program traversal. -/
def visitProgram (ext : ExternalFuncs) (st : ConvState) (prog : Program) :
    Except ConvError (ConvState × Program) :=
  let st1 := registerReservedVarIdents st prog.entryPointInputSemanticsSV
  let st2 := registerReservedVarIdents st1 prog.entryPointOutputSemanticsSV
  defaultVisitProgram ext st2 prog

/-- GLSLConverter.cpp 20-29, `GLSLConverter::Convert`: store the shader
target and the name-mangling prefix into the converter's member state and
visit the program.  The other members — in particular
`reservedVarIdents_` — keep whatever the converter object already held. -/
def convert (ext : ExternalFuncs) (st : ConvState) (program : Program)
    (shaderTarget : Nat) (nameManglingPrefix : String) :
    Except ConvError (ConvState × Program) :=
  let st1 := { st with
    shaderTarget := shaderTarget
    nameManglingPrefix := nameManglingPrefix }
  visitProgram ext st1 program

/-- Concrete external predicate for evaluations: no structure must be
resolved for the target. -/
def extNoResolve : ExternalFuncs :=
  ⟨fun _ _ => false⟩

/-- Concrete chain segment `a`: resolved to a struct-typed variable
declaration without the system-value flag. -/
def segA : VarIdentSeg :=
  ⟨"a", some (.varDeclRef ⟨"a", false, false, .Struct 0⟩)⟩

/-- Concrete chain segment `b`: resolved to a float-typed variable
declaration without the system-value flag. -/
def segB : VarIdentSeg :=
  ⟨"b", some (.varDeclRef ⟨"b", false, false, .Base .Float⟩)⟩

/-- Concrete chain segment `c`: resolved to a float-typed variable
declaration carrying the system-value flag. -/
def segC : VarIdentSeg :=
  ⟨"c", some (.varDeclRef ⟨"c", false, true, .Base .Float⟩)⟩

/-- Concrete program whose entry point declares one input-semantic
variable named `x` and nothing else. -/
def progFirst : Program :=
  ⟨[⟨"x", true, false, .Base .Float⟩], [], []⟩

/-- Concrete program declaring a global (non-input) variable named `x`
and registering no semantic identifiers of its own. -/
def progSecond : Program :=
  ⟨[], [], [.varDeclStmnt ⟨.Base .Float, [⟨"x", false, false, .Base .Float, none⟩]⟩]⟩

/-- Identifier of the first variable declared by the first global
declaration statement of a program. -/
def firstGlobalVarIdent (p : Program) : Option String :=
  match p.globalStmnts with
  | .varDeclStmnt ds :: _ =>
    match ds.varDecls with
    | vd :: _ => some vd.ident
    | [] => none
  | _ => none

/-- Concrete converter state outside the entry point. -/
def stBase : ConvState :=
  ⟨0, "xsc_", 0, false, []⟩

/-- Concrete converter state inside the entry point. -/
def stEntry : ConvState :=
  ⟨0, "xsc_", 0, true, []⟩

/-- Concrete `saturate` call with no arguments. -/
def satCallNoArgs : FunctionCall :=
  .mk (.Base .Float) .Saturate [] []

/- Helper lemmas about the embedded visit functions. -/

/-- Fusing the sampler-argument erasure with the traversal of the
surviving arguments equals erasing first (`EraseIf` keeps exactly the
arguments whose denoter is not a sampler type) and traversing the
survivors afterwards. -/
theorem visitArgsEraseSampler_eq_filter (ext : ExternalFuncs) (st : ConvState)
    (l : List Expr) :
    visitArgsEraseSampler ext st l
      = visitExprList ext st (l.filter (fun a => !(exprContainsSampler a))) := by
  induction l with
  | nil => rfl
  | cons a rest ih =>
    simp only [visitArgsEraseSampler, List.filter]
    cases h : exprContainsSampler a with
    | true => simp [h, ih]
    | false => simp [h, ih, visitExprList]

/-- The literal cast arguments appended by the saturate lowering are left
unchanged by the expression traversal: their spellings `0` and `1` do not
end in a half-precision suffix. -/
theorem visitExpr_makeLiteralCastExpr_fix (ext : ExternalFuncs) (st : ConvState)
    (typeDen : TypeDenoter) :
    visitExpr ext st (makeLiteralCastExpr typeDen .Int "0")
        = pure (makeLiteralCastExpr typeDen .Int "0")
    ∧ visitExpr ext st (makeLiteralCastExpr typeDen .Int "1")
        = pure (makeLiteralCastExpr typeDen .Int "1") :=
  ⟨rfl, rfl⟩

/-- Visiting a one-statement code block visits exactly that statement and
rebuilds the block around the result. -/
theorem visitStmnt_codeBlock_singleton (ext : ExternalFuncs) (st : ConvState)
    (s : Stmnt) :
    visitStmnt ext st (.codeBlockStmnt [s])
      = (do
          let (st1, s') ← visitStmnt ext st s
          pure (st1, Stmnt.codeBlockStmnt [s'])) := by
  cases h : visitStmnt ext st s with
  | error e => simp [visitStmnt, visitStmntList, h]
  | ok r => simp [visitStmnt, visitStmntList, h]

/-- C1 (code bug evaluation): on the chain `a.b.c` — head resolved to a
struct-typed variable declaration whose structure is not must-resolve, and
only `c`'s declaration carrying the system-value flag — the visit pops
only the first segment, leaving `b.c`: after each `PopFront` the scan
pointer is also advanced, so the leading segment `b` before the
system-value segment is skipped and kept.  This differs from popping
every leading segment up to the system-value segment (which would leave
`c`, and which the function's own comment describes), and from popping
the system-value segment as well (which would leave an empty chain). -/
theorem c1_visitVarIdent_system_value_pop_eval :
    visitVarIdent extNoResolve 0 [segA, segB, segC] = [segB, segC]
    ∧ [segB, segC] ≠ [segC]
    ∧ [segB, segC] ≠ ([] : List VarIdentSeg) := by
  refine ⟨rfl, ?_, ?_⟩ <;> decide

/-- C9: visiting a literal expression whose spelling ends in `h` or `H`
replaces that trailing character with `f` and sets the data type to
`Float`; a literal whose spelling does not end in `h` or `H` is left
unchanged.  In particular `"1.0h"` becomes `"1.0f"` of type `Float` and
`"1.0"` stays as it is. -/
theorem c9_literal_half_suffix_rewrite :
    (∀ (ext : ExternalFuncs) (st : ConvState) (v : String) (dt : DataType),
      visitExpr ext st (.literalExpr v dt)
        = pure (.literalExpr
            (if !v.isEmpty && (v.back = 'h' || v.back = 'H') then v.dropRight 1 ++ "f" else v)
            (if !v.isEmpty && (v.back = 'h' || v.back = 'H') then .Float else dt)))
    ∧ (∀ (ext : ExternalFuncs) (st : ConvState),
        visitExpr ext st (.literalExpr "1.0h" .Half) = pure (.literalExpr "1.0f" .Float))
    ∧ (∀ (ext : ExternalFuncs) (st : ConvState),
        visitExpr ext st (.literalExpr "1.0" .Float) = pure (.literalExpr "1.0" .Float)) := by
  refine ⟨?_, fun _ _ => rfl, fun _ _ => rfl⟩
  intro ext st v dt
  by_cases h1 : v.isEmpty
  · simp [visitExpr, h1]
  · by_cases h2 : (v.back = 'h' || v.back = 'H') = true
    · simp [visitExpr, h1, h2]
    · simp [visitExpr, h1, h2]

/-- C10: the literal-suffix rewrite is decided solely by the last
character of the spelling.  A literal with the empty spelling is left
unchanged and raises no error; a non-empty spelling ending in `h` or `H`
is rewritten and retyped to `Float` whatever the rest of the spelling and
whatever its recorded data type; and visiting a literal expression is
total — it never produces an error. -/
theorem c10_literal_rewrite_total_last_char_only :
    (∀ (ext : ExternalFuncs) (st : ConvState) (dt : DataType),
      visitExpr ext st (.literalExpr "" dt) = pure (.literalExpr "" dt))
    ∧ (∀ (ext : ExternalFuncs) (st : ConvState) (v : String) (dt : DataType),
        v.isEmpty = false → (v.back = 'h' ∨ v.back = 'H') →
        visitExpr ext st (.literalExpr v dt)
          = pure (.literalExpr (v.dropRight 1 ++ "f") .Float))
    ∧ (∀ (ext : ExternalFuncs) (st : ConvState) (v : String) (dt : DataType),
        ∃ r, visitExpr ext st (.literalExpr v dt) = Except.ok r) := by
  have key : ∀ (ext : ExternalFuncs) (st : ConvState) (v : String) (dt : DataType),
      visitExpr ext st (.literalExpr v dt)
        = pure (.literalExpr
            (if !v.isEmpty && (v.back = 'h' || v.back = 'H') then v.dropRight 1 ++ "f" else v)
            (if !v.isEmpty && (v.back = 'h' || v.back = 'H') then .Float else dt)) := by
    intro ext st v dt
    by_cases h1 : v.isEmpty
    · simp [visitExpr, h1]
    · by_cases h2 : (v.back = 'h' || v.back = 'H') = true
      · simp [visitExpr, h1, h2]
      · simp [visitExpr, h1, h2]
  refine ⟨fun _ _ _ => rfl, ?_, ?_⟩
  · intro ext st v dt h1 h2
    have h2b : (v.back = 'h' || v.back = 'H') = true := by
      rcases h2 with h | h <;> simp [h]
    rw [key]
    simp [h1, h2b]
  · intro ext st v dt
    exact ⟨_, key ext st v dt⟩

/-- C10 witness: a non-empty spelling `xh` whose rest is not a
floating-point literal, recorded with a non-float data type, is still
rewritten to `xf` and retyped to `Float`. -/
theorem c10_literal_witness :
    visitExpr extNoResolve stBase (.literalExpr "xh" .Bool)
      = pure (.literalExpr "xf" .Float) :=
  (c10_literal_rewrite_total_last_char_only).2.1 extNoResolve stBase "xh" .Bool
    rfl (Or.inl rfl)

/-- C2: on visiting the program root, the identifiers of the entry
point's declared input-semantic and output-semantic variables are appended
to the reserved identifier list, and only then does the default traversal
of the rest of the program run: the rest of the program is visited in a
state that already contains every one of those identifiers. -/
theorem c2_visitProgram_registers_reserved_idents_before_traversal
    (ext : ExternalFuncs) (st : ConvState) (prog : Program) :
    visitProgram ext st prog
      = defaultVisitProgram ext
          { st with reservedVarIdents := st.reservedVarIdents
              ++ (prog.entryPointInputSemanticsSV.map VarDeclSymbol.ident
                ++ prog.entryPointOutputSemanticsSV.map VarDeclSymbol.ident) } prog
    ∧ (∀ s, s ∈ prog.entryPointInputSemanticsSV.map VarDeclSymbol.ident
          ++ prog.entryPointOutputSemanticsSV.map VarDeclSymbol.ident →
        s ∈ st.reservedVarIdents
          ++ (prog.entryPointInputSemanticsSV.map VarDeclSymbol.ident
            ++ prog.entryPointOutputSemanticsSV.map VarDeclSymbol.ident)) := by
  constructor
  · simp [visitProgram, registerReservedVarIdents, List.append_assoc]
  · intro s h
    simp only [List.mem_append] at h ⊢
    tauto

/-- C3: the cast-insertion decision produces the unsigned-integer cast
exactly for a base unsigned-integer target with a base signed-integer
source, the signed-integer cast exactly for the reverse pairing, and no
cast for every other pairing; when a cast is required the expression is
replaced by a cast-wrapping node of the target base data type preserving
the original expression as its operand, and otherwise it is left
unwrapped.  The policy is applied at the three sites: the right-hand side
of a binary expression against the visited left-hand side's type, the
initializer of a variable declaration against the declared type, and the
assignment sub-expression of a variable-access expression against the
access expression's own type. -/
theorem c3_cast_insertion_sites_iff :
    (∀ t s : TypeDenoter,
      mustCastExprToDataType t s = some .UInt ↔ t = .Base .UInt ∧ s = .Base .Int)
    ∧ (∀ t s : TypeDenoter,
      mustCastExprToDataType t s = some .Int ↔ t = .Base .Int ∧ s = .Base .UInt)
    ∧ (∀ t s : TypeDenoter,
      mustCastExprToDataType t s = none
        ↔ ¬((t = .Base .UInt ∧ s = .Base .Int) ∨ (t = .Base .Int ∧ s = .Base .UInt)))
    ∧ (∀ (e : Expr) (t : TypeDenoter) (dt : DataType),
        mustCastExprToDataType t e.getTypeDenoter = some dt →
        convertExprIfCastRequired e t = .castExpr (.Base dt) e)
    ∧ (∀ (e : Expr) (t : TypeDenoter),
        mustCastExprToDataType t e.getTypeDenoter = none →
        convertExprIfCastRequired e t = e)
    ∧ (∀ (ext : ExternalFuncs) (st : ConvState) (td : TypeDenoter) (l r : Expr),
        visitExpr ext st (.binaryExpr td l r)
          = (do
              let lhs ← visitExpr ext st l
              let rhs ← visitExpr ext st r
              pure (Expr.binaryExpr td lhs
                (convertExprIfCastRequired rhs lhs.getTypeDenoter))))
    ∧ (∀ (ext : ExternalFuncs) (st : ConvState) (vd : VarDecl),
        visitVarDecl ext st vd
          = (do
              let vd1 := if mustRenameVarDecl st vd then renameVarDecl st vd else vd
              let init ← visitOptExpr ext st
                (vd1.initializer.map (fun e => convertExprIfCastRequired e vd1.typeDen))
              pure { vd1 with initializer := init }))
    ∧ (∀ (ext : ExternalFuncs) (st : ConvState) (td : TypeDenoter)
        (vi : List VarIdentSeg) (a : Expr),
        visitExpr ext st (.varAccessExpr td vi (some a))
          = (do
              let a' ← visitExpr ext st a
              pure (Expr.varAccessExpr td (visitVarIdent ext st.shaderTarget vi)
                (some (convertExprIfCastRequired a' td))))) := by
  refine ⟨?_, ?_, ?_, ?_, ?_, fun _ _ _ _ _ => rfl, fun _ _ _ => rfl, fun _ _ _ _ _ => rfl⟩
  · intro t s
    cases t with
    | Base dt1 =>
      cases s with
      | Base dt2 => cases dt1 <;> cases dt2 <;> simp [mustCastExprToDataType]
      | Struct n => simp [mustCastExprToDataType]
      | Sampler => simp [mustCastExprToDataType]
      | Other => simp [mustCastExprToDataType]
    | Struct n => simp [mustCastExprToDataType]
    | Sampler => simp [mustCastExprToDataType]
    | Other => simp [mustCastExprToDataType]
  · intro t s
    cases t with
    | Base dt1 =>
      cases s with
      | Base dt2 => cases dt1 <;> cases dt2 <;> simp [mustCastExprToDataType]
      | Struct n => simp [mustCastExprToDataType]
      | Sampler => simp [mustCastExprToDataType]
      | Other => simp [mustCastExprToDataType]
    | Struct n => simp [mustCastExprToDataType]
    | Sampler => simp [mustCastExprToDataType]
    | Other => simp [mustCastExprToDataType]
  · intro t s
    cases t with
    | Base dt1 =>
      cases s with
      | Base dt2 => cases dt1 <;> cases dt2 <;> simp [mustCastExprToDataType]
      | Struct n => simp [mustCastExprToDataType]
      | Sampler => simp [mustCastExprToDataType]
      | Other => simp [mustCastExprToDataType]
    | Struct n => simp [mustCastExprToDataType]
    | Sampler => simp [mustCastExprToDataType]
    | Other => simp [mustCastExprToDataType]
  · intro e t dt h
    simp [convertExprIfCastRequired, h, makeBaseTypeCastExpr]
  · intro e t h
    simp [convertExprIfCastRequired, h]

/-- C4: a function call tagged `Saturate` is retagged `Clamp` with the
two literal arguments `0` and `1` of integer spelling, each cast to the
argument's denoter, appended in that order, exactly when it has one
argument of base-typed denoter; a wrong argument count raises the
invalid-number-of-arguments error and a non-base argument raises the
invalid-argument-type error.  An error raised while visiting a statement
or an argument aborts the traversal of the remaining statements or
arguments with that error. -/
theorem c4_saturate_lowering_and_errors :
    (∀ (ext : ExternalFuncs) (st : ConvState) (td : TypeDenoter)
        (name : List VarIdentSeg) (args : List Expr),
        visitFunctionCall ext st (.mk td .Saturate name args)
          = match args with
            | [arg] =>
              if arg.getTypeDenoter.IsBase then
                (do
                  let argV ← visitExpr ext st arg
                  pure (FunctionCall.mk td .Clamp (visitVarIdent ext st.shaderTarget name)
                    [argV, makeLiteralCastExpr arg.getTypeDenoter .Int "0",
                      makeLiteralCastExpr arg.getTypeDenoter .Int "1"]))
              else Except.error .invalidArgTypeSaturate
            | _ => Except.error .invalidNumArgsSaturate)
    ∧ (∀ (ext : ExternalFuncs) (st : ConvState) (s : Stmnt)
        (rest : List Stmnt) (e : ConvError),
        visitStmnt ext st s = .error e → visitStmntList ext st (s :: rest) = .error e)
    ∧ (∀ (ext : ExternalFuncs) (st : ConvState) (a : Expr)
        (rest : List Expr) (e : ConvError),
        visitExpr ext st a = .error e → visitExprList ext st (a :: rest) = .error e) := by
  refine ⟨?_, ?_, ?_⟩
  · intro ext st td name args
    rcases args with _ | ⟨a, _ | ⟨b, t⟩⟩ <;> rfl
  · intro ext st s rest e h
    simp only [visitStmntList, h]
    rfl
  · intro ext st a rest e h
    simp only [visitExprList, h]
    rfl

/-- C4 witness: a `saturate` call with zero arguments raises the
invalid-number-of-arguments error and the statement-list traversal stops
with that error. -/
theorem c4_saturate_witness :
    visitStmntList extNoResolve stBase
      [.exprStmnt (.functionCallExpr satCallNoArgs), .returnStmnt none]
      = .error .invalidNumArgsSaturate :=
  (c4_saturate_lowering_and_errors).2.1 extNoResolve stBase
    (.exprStmnt (.functionCallExpr satCallNoArgs)) [.returnStmnt none]
    .invalidNumArgsSaturate rfl

/-- C5 (amended): `Convert` stores only the shader target and the
name-mangling prefix into the converter's member state; the reserved
identifier list and the other members enter the traversal exactly as the
converter object already held them — nothing is reset between calls. -/
theorem c5_convert_resets_only_target_and_prefix
    (ext : ExternalFuncs) (st : ConvState) (prog : Program)
    (tgt : Nat) (pfx : String) :
    convert ext st prog tgt pfx
      = visitProgram ext
          { st with shaderTarget := tgt, nameManglingPrefix := pfx } prog
    ∧ ({ st with shaderTarget := tgt, nameManglingPrefix := pfx } : ConvState).reservedVarIdents
        = st.reservedVarIdents
    ∧ ({ st with shaderTarget := tgt, nameManglingPrefix := pfx } : ConvState).structDeclLevel
        = st.structDeclLevel
    ∧ ({ st with shaderTarget := tgt, nameManglingPrefix := pfx } : ConvState).isInsideEntryPoint
        = st.isInsideEntryPoint :=
  ⟨rfl, rfl, rfl, rfl⟩

/-- C5 counterexample: a second `Convert` on the same converter does not
start from a fresh context.  A first call whose program's entry point
declares the input semantic `x` ends with `x` in the reserved identifier
list; feeding that converter state into a second call on a program that
registers no identifiers of its own makes the second call rename its
global variable `x` to `xsc_x` — state left by the previous call changed
the later call's result. -/
theorem c5_stale_reserved_idents_counterexample :
    convert extNoResolve ⟨0, "", 0, false, []⟩ progFirst 0 "xsc_"
        = .ok (⟨0, "xsc_", 0, false, ["x"]⟩, progFirst)
    ∧ (convert extNoResolve ⟨0, "xsc_", 0, false, ["x"]⟩ progSecond 0 "xsc_").map
        (fun r => firstGlobalVarIdent r.2) = .ok (some "xsc_x")
    ∧ ("xsc_x" : String) ≠ "x" := by
  refine ⟨rfl, rfl, by decide⟩

/-- C6: a visited variable declaration has its identifier changed to the
mangling prefix concatenated with the original identifier exactly when
the structure nesting level is zero, the shader-input flag is off, and
the identifier is a member of the reserved identifier list; when any
condition fails the identifier is unchanged. -/
theorem c6_varDecl_renaming_iff :
    (∀ (st : ConvState) (vd : VarDecl),
      mustRenameVarDecl st vd = true
        ↔ (st.structDeclLevel = 0 ∧ vd.isShaderInput = false
            ∧ vd.ident ∈ st.reservedVarIdents))
    ∧ (∀ (ext : ExternalFuncs) (st : ConvState) (vd : VarDecl),
        (visitVarDecl ext st vd).map VarDecl.ident
          = (visitVarDecl ext st vd).map (fun _ =>
              if mustRenameVarDecl st vd then st.nameManglingPrefix ++ vd.ident
              else vd.ident)) := by
  constructor
  · intro st vd
    simp [mustRenameVarDecl, isInsideStructDecl, Nat.pos_iff_ne_zero]
    tauto
  · intro ext st vd
    cases h : visitOptExpr ext st
        (Option.map (fun e => convertExprIfCastRequired e vd.typeDen) vd.initializer) with
    | error e =>
      by_cases hr : mustRenameVarDecl st vd <;>
        simp [visitVarDecl, hr, renameVarDecl, h, Except.map]
    | ok r =>
      by_cases hr : mustRenameVarDecl st vd <;>
        simp [visitVarDecl, hr, renameVarDecl, h, Except.map]

/-- C7: for each of the five statement kinds with a body slot (for loop,
while loop, do-while loop, if, else) the visit behaves as if
`MakeCodeBlockInEntryPointReturnStmnt` were applied to the body slot
first; that helper wraps a bare return statement in a one-statement code
block exactly when the pass is inside the entry point, and leaves every
other body, and every body outside the entry point, unchanged. -/
theorem c7_entry_point_return_body_wrapping :
    (∀ e, makeCodeBlockInEntryPointReturnStmnt true (.returnStmnt e)
        = .codeBlockStmnt [.returnStmnt e])
    ∧ (∀ b, isReturnStmnt b = false → makeCodeBlockInEntryPointReturnStmnt true b = b)
    ∧ (∀ b, makeCodeBlockInEntryPointReturnStmnt false b = b)
    ∧ (∀ (ext : ExternalFuncs) (st : ConvState) (c i : Option Expr) (b : Stmnt),
        visitStmnt ext st (.forLoopStmnt c i b)
          = visitStmnt ext st (.forLoopStmnt c i
              (makeCodeBlockInEntryPointReturnStmnt st.isInsideEntryPoint b)))
    ∧ (∀ (ext : ExternalFuncs) (st : ConvState) (c : Expr) (b : Stmnt),
        visitStmnt ext st (.whileLoopStmnt c b)
          = visitStmnt ext st (.whileLoopStmnt c
              (makeCodeBlockInEntryPointReturnStmnt st.isInsideEntryPoint b)))
    ∧ (∀ (ext : ExternalFuncs) (st : ConvState) (b : Stmnt) (c : Expr),
        visitStmnt ext st (.doWhileLoopStmnt b c)
          = visitStmnt ext st (.doWhileLoopStmnt
              (makeCodeBlockInEntryPointReturnStmnt st.isInsideEntryPoint b) c))
    ∧ (∀ (ext : ExternalFuncs) (st : ConvState) (c : Expr) (b : Stmnt)
        (els : Option Stmnt),
        visitStmnt ext st (.ifStmnt c b els)
          = visitStmnt ext st (.ifStmnt c
              (makeCodeBlockInEntryPointReturnStmnt st.isInsideEntryPoint b) els))
    ∧ (∀ (ext : ExternalFuncs) (st : ConvState) (b : Stmnt),
        visitStmnt ext st (.elseStmnt b)
          = visitStmnt ext st (.elseStmnt
              (makeCodeBlockInEntryPointReturnStmnt st.isInsideEntryPoint b))) := by
  refine ⟨fun _ => rfl, ?_, ?_, ?_, ?_, ?_, ?_, ?_⟩
  · intro b h
    cases b <;> simp_all [makeCodeBlockInEntryPointReturnStmnt, isReturnStmnt]
  · intro b
    simp [makeCodeBlockInEntryPointReturnStmnt]
  · intro ext st c i b
    by_cases hin : st.isInsideEntryPoint
    · cases b <;>
        simp [makeCodeBlockInEntryPointReturnStmnt, hin, visitStmnt, isReturnStmnt,
          visitStmnt_codeBlock_singleton, bind_assoc]
    · simp [makeCodeBlockInEntryPointReturnStmnt, hin]
  · intro ext st c b
    by_cases hin : st.isInsideEntryPoint
    · cases b <;>
        simp [makeCodeBlockInEntryPointReturnStmnt, hin, visitStmnt, isReturnStmnt,
          visitStmnt_codeBlock_singleton, bind_assoc]
    · simp [makeCodeBlockInEntryPointReturnStmnt, hin]
  · intro ext st b c
    by_cases hin : st.isInsideEntryPoint
    · cases b <;>
        simp [makeCodeBlockInEntryPointReturnStmnt, hin, visitStmnt, isReturnStmnt,
          visitStmnt_codeBlock_singleton, bind_assoc]
    · simp [makeCodeBlockInEntryPointReturnStmnt, hin]
  · intro ext st c b els
    by_cases hin : st.isInsideEntryPoint
    · cases b <;>
        simp [makeCodeBlockInEntryPointReturnStmnt, hin, visitStmnt, isReturnStmnt,
          visitStmnt_codeBlock_singleton, bind_assoc]
    · simp [makeCodeBlockInEntryPointReturnStmnt, hin]
  · intro ext st b
    by_cases hin : st.isInsideEntryPoint
    · cases b <;>
        simp [makeCodeBlockInEntryPointReturnStmnt, hin, visitStmnt, isReturnStmnt,
          visitStmnt_codeBlock_singleton, bind_assoc]
    · simp [makeCodeBlockInEntryPointReturnStmnt, hin]

/-- C7 witness: inside the entry point an if statement whose body is a
bare return is visited as if the body were the one-statement block
holding that return, the helper wraps that return, and a non-return body
is left unchanged by the helper. -/
theorem c7_wrapping_witness :
    visitStmnt extNoResolve stEntry
        (.ifStmnt (.otherExpr (.Base .Bool)) (.returnStmnt none) none)
      = visitStmnt extNoResolve stEntry
          (.ifStmnt (.otherExpr (.Base .Bool))
            (makeCodeBlockInEntryPointReturnStmnt true (.returnStmnt none)) none)
    ∧ makeCodeBlockInEntryPointReturnStmnt true (.returnStmnt none)
        = .codeBlockStmnt [.returnStmnt none]
    ∧ makeCodeBlockInEntryPointReturnStmnt true (.codeBlockStmnt [])
        = .codeBlockStmnt [] :=
  ⟨(c7_entry_point_return_body_wrapping).2.2.2.2.2.2.1 extNoResolve stEntry
      (.otherExpr (.Base .Bool)) (.returnStmnt none) none,
    (c7_entry_point_return_body_wrapping).1 none,
    (c7_entry_point_return_body_wrapping).2.1 (.codeBlockStmnt []) rfl⟩

/-- C8: a call tagged `Undefined` has exactly its sampler-typed arguments
erased before the default traversal of the survivors, a reachable
function declaration has exactly its sampler-typed parameters erased
before its children are traversed (a non-reachable one is returned
untouched), and in both lists the survivors keep their original relative
order (the erased list is a sublist of the original, no survivor is
sampler-typed, and the argument list empties exactly when every argument
was sampler-typed). -/
theorem c8_sampler_argument_and_parameter_stripping :
    (∀ (ext : ExternalFuncs) (st : ConvState) (td : TypeDenoter)
        (name : List VarIdentSeg) (args : List Expr),
        visitFunctionCall ext st (.mk td .Undefined name args)
          = (do
              let args' ← visitExprList ext st
                (args.filter (fun a => !(exprContainsSampler a)))
              pure (FunctionCall.mk td .Undefined
                (visitVarIdent ext st.shaderTarget name) args')))
    ∧ (∀ (args : List Expr),
        (args.filter (fun a => !(exprContainsSampler a))).Sublist args)
    ∧ (∀ (args : List Expr),
        (args.filter (fun a => !(exprContainsSampler a))).all
          (fun a => !(exprContainsSampler a)) = true)
    ∧ (∀ (args : List Expr),
        args.filter (fun a => !(exprContainsSampler a)) = []
          ↔ args.all (fun a => exprContainsSampler a) = true)
    ∧ (∀ (ext : ExternalFuncs) (st : ConvState) (iE : Bool)
        (params : List VarDeclStmnt) (body : List Stmnt),
        visitFunctionDecl ext st (.mk true iE params body)
          = (if iE then (do
              let params' ← visitVarDeclStmntList ext
                { st with isInsideEntryPoint := true }
                (params.filter (fun p => !(varTypeIsSampler p.varTypeDen)))
              let (stB, body') ← visitStmntList ext
                { st with isInsideEntryPoint := true } body
              pure ({ stB with isInsideEntryPoint := false },
                FunctionDecl.mk true iE params' body'))
            else (do
              let params' ← visitVarDeclStmntList ext st
                (params.filter (fun p => !(varTypeIsSampler p.varTypeDen)))
              let (stB, body') ← visitStmntList ext st body
              pure (stB, FunctionDecl.mk true iE params' body'))))
    ∧ (∀ (ext : ExternalFuncs) (st : ConvState) (iE : Bool)
        (params : List VarDeclStmnt) (body : List Stmnt),
        visitFunctionDecl ext st (.mk false iE params body)
          = pure (st, .mk false iE params body))
    ∧ (∀ (params : List VarDeclStmnt),
        (params.filter (fun p => !(varTypeIsSampler p.varTypeDen))).Sublist params) := by
  refine ⟨?_, ?_, ?_, ?_, fun _ _ _ _ _ => rfl, fun _ _ _ _ _ => rfl, ?_⟩
  · intro ext st td name args
    simp [visitFunctionCall, visitArgsEraseSampler_eq_filter]
  · intro args
    exact List.filter_sublist args
  · intro args
    simp only [List.all_eq_true]
    intro a ha
    exact (List.mem_filter.mp ha).2
  · intro args
    simp [List.filter_eq_nil_iff, List.all_eq_true]
  · intro params
    exact List.filter_sublist params

end Xsc
